import Mathlib

/-!
Verification of the OrbitOS multi-tenant RBAC model.

The development shallowly embeds the data model of the OrbitOS API
(`OrbitOS.Domain.Entities`: Organization, User, OrganizationMembership,
Function, Role, RoleFunction, UserRole), the seeding routine
(`OrbitOS.Infrastructure.Data.Seeding.DataSeeder`), and the password hasher
(`OrbitOS.Infrastructure.Services.PasswordHasher`).  Guids are embedded as
natural numbers whose values mirror the distinguishing digits of the
deterministic seed Guids in `SeedIds.cs` (for example the function Guid
ending in 4401 becomes the natural number 4401).  Timestamps are natural
numbers; `DateTime.UtcNow` becomes an explicit `now` parameter.

The authorization resolver (`effectivePermissions`, `authorize`), the
assignment operation (`assignRole`) and the role soft delete (`deleteRole`)
are not implemented in the repository; following the specification they are
modelled from the words of the spec and are marked as such in their doc
comments.
-/

namespace OrbitOS

/-- Embeds `OrganizationMembership.Role` (MembershipRole enum): Member, Admin, Owner. -/
inductive MembershipTier where
  | Member
  | Admin
  | Owner
  deriving DecidableEq, Repr

/-- Row of the Organizations table (`Organization` entity). -/
structure OrgRow where
  id : Nat
  name : String
  slug : String
  description : String
  createdAt : Nat
  updatedAt : Nat
  deriving DecidableEq, Repr

/-- Row of the Users table (`User` entity, the fields the seeder sets). -/
structure UserRow where
  id : Nat
  email : String
  displayName : String
  firstName : String
  lastName : String
  passwordHash : String
  createdAt : Nat
  updatedAt : Nat
  deriving DecidableEq, Repr

/-- Row of the OrganizationMemberships table (`OrganizationMembership` entity). -/
structure MembershipRow where
  id : Nat
  userId : Nat
  organizationId : Nat
  tier : MembershipTier
  createdAt : Nat
  updatedAt : Nat
  deriving DecidableEq, Repr

/-- Row of the Functions table (`Function` entity): a granular permission. -/
structure FunctionRow where
  id : Nat
  name : String
  description : String
  purpose : String
  category : String
  organizationId : Nat
  createdAt : Nat
  updatedAt : Nat
  deriving DecidableEq, Repr

/-- Row of the Roles table (`Role` entity).  `deletedAt` is the soft-delete
timestamp of `BaseEntity.DeletedAt`; `none` means the role is live. -/
structure RoleRow where
  id : Nat
  name : String
  description : String
  purpose : String
  department : String
  organizationId : Nat
  deletedAt : Option Nat
  createdAt : Nat
  updatedAt : Nat
  deriving DecidableEq, Repr

/-- Row of the RoleFunctions junction table (`RoleFunction` entity). -/
structure RoleFunctionRow where
  id : Nat
  roleId : Nat
  functionId : Nat
  createdAt : Nat
  updatedAt : Nat
  deriving DecidableEq, Repr

/-- Row of the UserRoles table (`UserRole` entity; see the
`AddUserRoleAndUpdateUser` migration: columns Id, UserId, RoleId,
OrganizationId, CreatedAt, UpdatedAt). -/
structure UserRoleRow where
  id : Nat
  userId : Nat
  roleId : Nat
  organizationId : Nat
  createdAt : Nat
  updatedAt : Nat
  deriving DecidableEq, Repr

/-- The whole store: the tables of `OrbitOSDbContext` the RBAC model uses. -/
structure Store where
  organizations : List OrgRow
  users : List UserRow
  memberships : List MembershipRow
  functions : List FunctionRow
  roles : List RoleRow
  roleFunctions : List RoleFunctionRow
  userRoles : List UserRoleRow
  deriving DecidableEq, Repr

def emptyStore : Store :=
  { organizations := [], users := [], memberships := [], functions := []
    roles := [], roleFunctions := [], userRoles := [] }

/-! ### Seed identifiers (SeedIds.cs)

Each deterministic seed Guid is embedded as the natural number formed by its
distinguishing digits: `1111...` becomes 1111, `...444401` becomes 4401, and
so on. -/

def rugertekOrgId : Nat := 1111
def rodrigoUserId : Nat := 2222
def superAdminRoleId : Nat := 3301
def userAdminRoleId : Nat := 3302
def orgAdminRoleId : Nat := 3303
def viewerRoleId : Nat := 3304
def rodrigoMembershipId : Nat := 5501
def rodrigoSuperAdminUserRoleId : Nat := 6601

def usersViewId : Nat := 4401
def usersCreateId : Nat := 4402
def usersUpdateId : Nat := 4403
def usersDeleteId : Nat := 4404
def usersRolesManageId : Nat := 4405
def usersRolesViewId : Nat := 4406
def usersInviteId : Nat := 4407
def usersDeactivateId : Nat := 4408
def usersReactivateId : Nat := 4409
def usersActivityViewId : Nat := 4410
def orgViewId : Nat := 4501
def orgUpdateId : Nat := 4502
def orgSettingsManageId : Nat := 4503
def orgSettingsViewId : Nat := 4504
def orgBillingManageId : Nat := 4505
def orgBillingViewId : Nat := 4506
def orgIntegrationsManageId : Nat := 4507
def orgIntegrationsViewId : Nat := 4508
def orgApiKeysManageId : Nat := 4509
def orgApiKeysViewId : Nat := 4510
def orgWebhooksManageId : Nat := 4511
def orgWebhooksViewId : Nat := 4512
def orgAuditLogViewId : Nat := 4513
def orgDataExportId : Nat := 4514
def rolesViewId : Nat := 4601
def rolesCreateId : Nat := 4602
def rolesUpdateId : Nat := 4603
def rolesDeleteId : Nat := 4604
def rolesFunctionsAssignId : Nat := 4605
def functionsViewId : Nat := 4701
def functionsCreateId : Nat := 4702
def functionsUpdateId : Nat := 4703
def functionsDeleteId : Nat := 4704

/-! ### The seeding routine (DataSeeder.cs)

The seeder is embedded as a pure state transformer.  `DateTime.UtcNow`
becomes the `now` parameter, `PasswordHasher.HashPassword("123456")` (which
draws a random salt) becomes the `pwHash` parameter, and the
`Guid.NewGuid()` calls that produce the RoleFunction row ids become the
`fresh` supply, applied at the position of the row in the built list. -/

/-- Embeds `DataSeeder.SeedOrganizationsAsync`: inserts the Rugertek organization
unless an organization with its seed id already exists. -/
def seedOrganizationsAsync (now : Nat) (s : Store) : Store :=
  if s.organizations.any (fun o => o.id == rugertekOrgId) then s
  else
    { s with organizations := s.organizations ++
        [{ id := rugertekOrgId, name := "Rugertek", slug := "rugertek",
           description := "Rugertek - AI-Native Business Solutions",
           createdAt := now, updatedAt := now }] }

/-- Embeds `DataSeeder.SeedUsersAsync`: inserts the rodrigo user unless a user with
its seed id already exists.  `pwHash` stands for the freshly salted
`PasswordHasher.HashPassword("123456")` result. -/
def seedUsersAsync (now : Nat) (pwHash : String) (s : Store) : Store :=
  if s.users.any (fun u => u.id == rodrigoUserId) then s
  else
    { s with users := s.users ++
        [{ id := rodrigoUserId, email := "rodrigo@rugertek.com",
           displayName := "Rodrigo Campos Cervera", firstName := "Rodrigo",
           lastName := "Campos Cervera", passwordHash := pwHash,
           createdAt := now, updatedAt := now }] }

/-- Embeds `DataSeeder.SeedOrganizationMembershipsAsync`: inserts the membership of
rodrigo in Rugertek (tier Owner) unless its seed id already exists. -/
def seedOrganizationMembershipsAsync (now : Nat) (s : Store) : Store :=
  if s.memberships.any (fun m => m.id == rodrigoMembershipId) then s
  else
    { s with memberships := s.memberships ++
        [{ id := rodrigoMembershipId, userId := rodrigoUserId,
           organizationId := rugertekOrgId, tier := MembershipTier.Owner,
           createdAt := now, updatedAt := now }] }

/-- Embeds `DataSeeder.GetSystemFunctions`: the 33 system functions, in source
order, every one carrying `OrganizationId = SeedIds.Organizations.Rugertek`. -/
def getSystemFunctions (now : Nat) : List FunctionRow :=
  [{ id := usersViewId, name := "users.view", description := "View user profiles and information", purpose := "Read access to user data", category := "User Management", organizationId := rugertekOrgId, createdAt := now, updatedAt := now },
   { id := usersCreateId, name := "users.create", description := "Create new user accounts", purpose := "Add new users to the organization", category := "User Management", organizationId := rugertekOrgId, createdAt := now, updatedAt := now },
   { id := usersUpdateId, name := "users.update", description := "Update user profile information", purpose := "Modify existing user data", category := "User Management", organizationId := rugertekOrgId, createdAt := now, updatedAt := now },
   { id := usersDeleteId, name := "users.delete", description := "Delete user accounts", purpose := "Remove users from the organization", category := "User Management", organizationId := rugertekOrgId, createdAt := now, updatedAt := now },
   { id := usersRolesManageId, name := "users.roles.manage", description := "Assign and remove roles from users", purpose := "Control user permissions", category := "User Management", organizationId := rugertekOrgId, createdAt := now, updatedAt := now },
   { id := usersRolesViewId, name := "users.roles.view", description := "View role assignments for users", purpose := "See what roles users have", category := "User Management", organizationId := rugertekOrgId, createdAt := now, updatedAt := now },
   { id := usersInviteId, name := "users.invite", description := "Send invitations to new users", purpose := "Onboard new team members", category := "User Management", organizationId := rugertekOrgId, createdAt := now, updatedAt := now },
   { id := usersDeactivateId, name := "users.deactivate", description := "Deactivate user accounts", purpose := "Temporarily disable user access", category := "User Management", organizationId := rugertekOrgId, createdAt := now, updatedAt := now },
   { id := usersReactivateId, name := "users.reactivate", description := "Reactivate deactivated user accounts", purpose := "Restore user access", category := "User Management", organizationId := rugertekOrgId, createdAt := now, updatedAt := now },
   { id := usersActivityViewId, name := "users.activity.view", description := "View user activity logs", purpose := "Monitor user actions", category := "User Management", organizationId := rugertekOrgId, createdAt := now, updatedAt := now },
   { id := orgViewId, name := "organization.view", description := "View organization information", purpose := "Read access to organization data", category := "Organization Management", organizationId := rugertekOrgId, createdAt := now, updatedAt := now },
   { id := orgUpdateId, name := "organization.update", description := "Update organization information", purpose := "Modify organization profile", category := "Organization Management", organizationId := rugertekOrgId, createdAt := now, updatedAt := now },
   { id := orgSettingsManageId, name := "organization.settings.manage", description := "Manage organization settings", purpose := "Configure organization preferences", category := "Organization Management", organizationId := rugertekOrgId, createdAt := now, updatedAt := now },
   { id := orgSettingsViewId, name := "organization.settings.view", description := "View organization settings", purpose := "Read organization configuration", category := "Organization Management", organizationId := rugertekOrgId, createdAt := now, updatedAt := now },
   { id := orgBillingManageId, name := "organization.billing.manage", description := "Manage billing and subscriptions", purpose := "Handle payments and plans", category := "Organization Management", organizationId := rugertekOrgId, createdAt := now, updatedAt := now },
   { id := orgBillingViewId, name := "organization.billing.view", description := "View billing information", purpose := "See payment history and invoices", category := "Organization Management", organizationId := rugertekOrgId, createdAt := now, updatedAt := now },
   { id := orgIntegrationsManageId, name := "organization.integrations.manage", description := "Manage third-party integrations", purpose := "Configure external services", category := "Organization Management", organizationId := rugertekOrgId, createdAt := now, updatedAt := now },
   { id := orgIntegrationsViewId, name := "organization.integrations.view", description := "View integration configurations", purpose := "See connected services", category := "Organization Management", organizationId := rugertekOrgId, createdAt := now, updatedAt := now },
   { id := orgApiKeysManageId, name := "organization.apikeys.manage", description := "Create and revoke API keys", purpose := "Manage programmatic access", category := "Organization Management", organizationId := rugertekOrgId, createdAt := now, updatedAt := now },
   { id := orgApiKeysViewId, name := "organization.apikeys.view", description := "View API keys", purpose := "See existing API keys", category := "Organization Management", organizationId := rugertekOrgId, createdAt := now, updatedAt := now },
   { id := orgWebhooksManageId, name := "organization.webhooks.manage", description := "Configure webhook endpoints", purpose := "Set up event notifications", category := "Organization Management", organizationId := rugertekOrgId, createdAt := now, updatedAt := now },
   { id := orgWebhooksViewId, name := "organization.webhooks.view", description := "View webhook configurations", purpose := "See webhook settings", category := "Organization Management", organizationId := rugertekOrgId, createdAt := now, updatedAt := now },
   { id := orgAuditLogViewId, name := "organization.auditlog.view", description := "View organization audit log", purpose := "Review security and compliance events", category := "Organization Management", organizationId := rugertekOrgId, createdAt := now, updatedAt := now },
   { id := orgDataExportId, name := "organization.data.export", description := "Export organization data", purpose := "Download data for backup or migration", category := "Organization Management", organizationId := rugertekOrgId, createdAt := now, updatedAt := now },
   { id := rolesViewId, name := "roles.view", description := "View roles", purpose := "See available roles", category := "Role Management", organizationId := rugertekOrgId, createdAt := now, updatedAt := now },
   { id := rolesCreateId, name := "roles.create", description := "Create new roles", purpose := "Define custom permission sets", category := "Role Management", organizationId := rugertekOrgId, createdAt := now, updatedAt := now },
   { id := rolesUpdateId, name := "roles.update", description := "Update existing roles", purpose := "Modify role definitions", category := "Role Management", organizationId := rugertekOrgId, createdAt := now, updatedAt := now },
   { id := rolesDeleteId, name := "roles.delete", description := "Delete roles", purpose := "Remove unused roles", category := "Role Management", organizationId := rugertekOrgId, createdAt := now, updatedAt := now },
   { id := rolesFunctionsAssignId, name := "roles.functions.assign", description := "Assign functions to roles", purpose := "Configure role permissions", category := "Role Management", organizationId := rugertekOrgId, createdAt := now, updatedAt := now },
   { id := functionsViewId, name := "functions.view", description := "View functions", purpose := "See available permissions", category := "Function Management", organizationId := rugertekOrgId, createdAt := now, updatedAt := now },
   { id := functionsCreateId, name := "functions.create", description := "Create custom functions", purpose := "Define new permissions", category := "Function Management", organizationId := rugertekOrgId, createdAt := now, updatedAt := now },
   { id := functionsUpdateId, name := "functions.update", description := "Update functions", purpose := "Modify permission definitions", category := "Function Management", organizationId := rugertekOrgId, createdAt := now, updatedAt := now },
   { id := functionsDeleteId, name := "functions.delete", description := "Delete functions", purpose := "Remove unused permissions", category := "Function Management", organizationId := rugertekOrgId, createdAt := now, updatedAt := now }]

/-- Embeds `DataSeeder.SeedFunctionsAsync`: inserts the system functions unless a
function with the UsersView seed id already exists. -/
def seedFunctionsAsync (now : Nat) (s : Store) : Store :=
  if s.functions.any (fun f => f.id == usersViewId) then s
  else { s with functions := s.functions ++ getSystemFunctions now }

/-- Embeds `DataSeeder.SeedRolesAsync`: inserts the four system roles unless a role
with the SuperAdmin seed id already exists. -/
def seedRolesAsync (now : Nat) (s : Store) : Store :=
  if s.roles.any (fun r => r.id == superAdminRoleId) then s
  else
    { s with roles := s.roles ++
        [{ id := superAdminRoleId, name := "Super Administrator",
           description := "Full access to all system features including user and organization management",
           purpose := "Ultimate administrative control", department := "Administration",
           organizationId := rugertekOrgId, deletedAt := none,
           createdAt := now, updatedAt := now },
         { id := userAdminRoleId, name := "User Administrator",
           description := "Full access to user management features",
           purpose := "Manage users and their permissions", department := "Human Resources",
           organizationId := rugertekOrgId, deletedAt := none,
           createdAt := now, updatedAt := now },
         { id := orgAdminRoleId, name := "Organization Administrator",
           description := "Full access to organization management features",
           purpose := "Configure organization settings and integrations", department := "Operations",
           organizationId := rugertekOrgId, deletedAt := none,
           createdAt := now, updatedAt := now },
         { id := viewerRoleId, name := "Viewer",
           description := "Read-only access to view users and organization information",
           purpose := "Observation without modification capabilities", department := "General",
           organizationId := rugertekOrgId, deletedAt := none,
           createdAt := now, updatedAt := now }] }

/-- Embeds `DataSeeder.GetAllFunctionIds`: the 33 function seed ids, Super Admin
grant order. -/
def getAllFunctionIds : List Nat :=
  [usersViewId, usersCreateId, usersUpdateId,
   usersDeleteId, usersRolesManageId, usersRolesViewId,
   usersInviteId, usersDeactivateId, usersReactivateId,
   usersActivityViewId,
   orgViewId, orgUpdateId, orgSettingsManageId,
   orgSettingsViewId, orgBillingManageId, orgBillingViewId,
   orgIntegrationsManageId, orgIntegrationsViewId,
   orgApiKeysManageId, orgApiKeysViewId,
   orgWebhooksManageId, orgWebhooksViewId,
   orgAuditLogViewId, orgDataExportId,
   rolesViewId, rolesCreateId, rolesUpdateId,
   rolesDeleteId, rolesFunctionsAssignId,
   functionsViewId, functionsCreateId, functionsUpdateId,
   functionsDeleteId]

/-- The User Admin grant list of `SeedRoleFunctionsAsync`: all User
Management, all Role Management, functions view only. -/
def userAdminFunctionIds : List Nat :=
  [usersViewId, usersCreateId, usersUpdateId,
   usersDeleteId, usersRolesManageId, usersRolesViewId,
   usersInviteId, usersDeactivateId, usersReactivateId,
   usersActivityViewId,
   rolesViewId, rolesCreateId, rolesUpdateId,
   rolesDeleteId, rolesFunctionsAssignId,
   functionsViewId]

/-- The Org Admin grant list of `SeedRoleFunctionsAsync`: all Organization
Management plus view users, user roles, roles and functions. -/
def orgAdminFunctionIds : List Nat :=
  [orgViewId, orgUpdateId, orgSettingsManageId,
   orgSettingsViewId, orgBillingManageId, orgBillingViewId,
   orgIntegrationsManageId, orgIntegrationsViewId,
   orgApiKeysManageId, orgApiKeysViewId,
   orgWebhooksManageId, orgWebhooksViewId,
   orgAuditLogViewId, orgDataExportId,
   usersViewId, usersRolesViewId,
   rolesViewId, functionsViewId]

/-- The Viewer grant list of `SeedRoleFunctionsAsync`: only view
permissions. -/
def viewerFunctionIds : List Nat :=
  [usersViewId, usersRolesViewId,
   orgViewId, orgSettingsViewId,
   orgBillingViewId, orgIntegrationsViewId,
   orgApiKeysViewId, orgWebhooksViewId,
   rolesViewId, functionsViewId]

/-- Embeds `DataSeeder.SeedRoleFunctionsAsync`: when the RoleFunctions table holds
no row at all, inserts the grant rows for the four roles in source order;
`fresh` supplies the `Guid.NewGuid()` row ids by position. -/
def seedRoleFunctionsAsync (now : Nat) (fresh : Nat → Nat) (s : Store) : Store :=
  if s.roleFunctions.isEmpty then
    let pairs :=
      getAllFunctionIds.map (fun f => (superAdminRoleId, f)) ++
      userAdminFunctionIds.map (fun f => (userAdminRoleId, f)) ++
      orgAdminFunctionIds.map (fun f => (orgAdminRoleId, f)) ++
      viewerFunctionIds.map (fun f => (viewerRoleId, f))
    let rows := pairs.enum.map fun kp =>
      { id := fresh kp.1, roleId := kp.2.1, functionId := kp.2.2,
        createdAt := now, updatedAt := now : RoleFunctionRow }
    { s with roleFunctions := s.roleFunctions ++ rows }
  else s

/-- Embeds `DataSeeder.SeedUserRolesAsync`: inserts the rodrigo-SuperAdmin
assignment unless its seed id already exists. -/
def seedUserRolesAsync (now : Nat) (s : Store) : Store :=
  if s.userRoles.any (fun ur => ur.id == rodrigoSuperAdminUserRoleId) then s
  else
    { s with userRoles := s.userRoles ++
        [{ id := rodrigoSuperAdminUserRoleId, userId := rodrigoUserId,
           roleId := superAdminRoleId, organizationId := rugertekOrgId,
           createdAt := now, updatedAt := now }] }

/-- Embeds `DataSeeder.SeedAsync`: the seven seeding steps in source order. -/
def seedAsync (now : Nat) (fresh : Nat → Nat) (pwHash : String) (s : Store) : Store :=
  seedUserRolesAsync now
    (seedRoleFunctionsAsync now fresh
      (seedRolesAsync now
        (seedFunctionsAsync now
          (seedOrganizationMembershipsAsync now
            (seedUsersAsync now pwHash
              (seedOrganizationsAsync now s))))))

/-- The store obtained by seeding the empty store once, with time 0, the
RoleFunction ids 7000, 7001, ... and an arbitrary password hash. -/
def seededStore : Store :=
  seedAsync 0 (fun k => 7000 + k) "seeded-password-hash" emptyStore

/-! ### Authorization resolver (modelled from the spec) -/

/-- Modelled from the spec: membership test used by the Tenant Isolation
Guard and the resolver; true iff a Membership row for (userId, orgId)
exists (spec section 3, Membership: unique per (user, organization)). -/
def isMember (userId orgId : Nat) (s : Store) : Bool :=
  s.memberships.any fun m => m.userId == userId && m.organizationId == orgId

/-- Modelled from the spec: `permissionsOf(roleId) -> set of Permission`
(spec section 4.2), read off the RoleFunction junction rows. -/
def permissionsOf (roleId : Nat) (s : Store) : List Nat :=
  (s.roleFunctions.filter fun rf => rf.roleId == roleId).map
    fun rf => rf.functionId

/-- Modelled from the spec: true iff a RoleAssignment (UserRole) row for the
triple (userId, roleId, orgId) exists. -/
def tripleAssigned (userId roleId orgId : Nat) (s : Store) : Bool :=
  s.userRoles.any fun ur =>
    ur.userId == userId && ur.roleId == roleId && ur.organizationId == orgId

/-- Modelled from the spec: `rolesOf(userId, orgId) -> set of Role`
(non-deleted only), spec section 4.3: the non-deleted roles that have a
RoleAssignment row for the user within the organization. -/
def rolesOf (userId orgId : Nat) (s : Store) : List RoleRow :=
  s.roles.filter fun r =>
    r.deletedAt == none && tripleAssigned userId r.id orgId s

/-- Modelled from the spec: `effectivePermissions(userId, orgId)`, spec
section 4.4: the union, over every non-deleted role assigned to the user
within the organization, of that roles granted permissions; empty if the
user has no membership in the organization. -/
def effectivePermissions (userId orgId : Nat) (s : Store) : List Nat :=
  if isMember userId orgId s then
    (rolesOf userId orgId s).flatMap fun r => permissionsOf r.id s
  else []

/-- Modelled from the spec: `authorize(userId, orgId, permissionId)`, spec
section 4.4: true iff the permission is in the effective set; returns
`false` (never throws) when the user has no membership. -/
def authorize (userId orgId permissionId : Nat) (s : Store) : Bool :=
  (effectivePermissions userId orgId s).contains permissionId

/-! ### Mutation operations (modelled from the spec) -/

instance {ε α : Type} [DecidableEq ε] [DecidableEq α] :
    DecidableEq (Except ε α) := fun a b =>
  match a, b with
  | Except.ok x, Except.ok y => decidable_of_iff (x = y) (by simp)
  | Except.error x, Except.error y => decidable_of_iff (x = y) (by simp)
  | Except.ok _, Except.error _ => isFalse (by simp)
  | Except.error _, Except.ok _ => isFalse (by simp)

/-- Error taxonomy of spec section 7 (the cases the operations below use). -/
inductive RbacError where
  | NotFound
  | NotAMember
  | OrganizationMismatch
  | DuplicateIdentifier
  deriving DecidableEq, Repr

/-- Modelled from the spec: the Permission Catalog operation
`register(id, category, description)` of spec section 4.1, absent from the
source; in this program the catalog is the Functions table, so registering
appends a Function row, failing with `DuplicateIdentifier` when the
identifier is already registered. -/
def registerFunction (f : FunctionRow) (s : Store) : Except RbacError Store :=
  if s.functions.any (fun g => g.id == f.id || g.name == f.name) then
    Except.error RbacError.DuplicateIdentifier
  else Except.ok { s with functions := s.functions ++ [f] }

/-- Modelled from the spec: `assignRole(userId, roleId, orgId)` of spec
section 4.3, absent from the source.  In spec order it fails with
`NotAMember` when no membership row exists for (userId, orgId), with
`NotFound` when the role does not exist, and with `OrganizationMismatch`
when the owning organization of the role differs from orgId; an already
existing triple is an idempotent success; otherwise it creates the
RoleAssignment (UserRole) row.  Errors leave the store unchanged: the
result pairs the outcome with the store. -/
def assignRole (userId roleId orgId : Nat) (newId now : Nat) (s : Store) :
    Except RbacError Unit × Store :=
  if isMember userId orgId s then
    match s.roles.find? (fun r => r.id == roleId) with
    | none => (Except.error RbacError.NotFound, s)
    | some r =>
      if r.organizationId == orgId then
        if tripleAssigned userId roleId orgId s then (Except.ok (), s)
        else
          (Except.ok (),
            { s with userRoles := s.userRoles ++
                [{ id := newId, userId := userId, roleId := roleId,
                   organizationId := orgId, createdAt := now, updatedAt := now }] })
      else (Except.error RbacError.OrganizationMismatch, s)
  else (Except.error RbacError.NotAMember, s)

/-- Modelled from the spec: `deleteRole(roleId)` of spec section 4.2, absent
from the source: a soft delete that only marks the deleted timestamp on the
role, removing no RolePermission (RoleFunction) or RoleAssignment (UserRole)
row. -/
def deleteRole (roleId t : Nat) (s : Store) : Store :=
  { s with roles := s.roles.map fun r =>
      if r.id == roleId then { r with deletedAt := some t } else r }

/-- Stated from the words of claim C8, for comparison with the resolver on a
soft-deleted store: the effective permissions with the contribution of one
role excluded from the union. -/
def effPermsExcludingRole (roleId userId orgId : Nat) (s : Store) : List Nat :=
  if isMember userId orgId s then
    ((rolesOf userId orgId s).filter (fun r => !(r.id == roleId))).flatMap
      fun r => permissionsOf r.id s
  else []

/-- Does the name of the function end in `.view` (the shape of the
read-only permissions of the Viewer grant list)? -/
def nameEndsWithView (f : FunctionRow) : Bool :=
  ".view".toList.isSuffixOf f.name.toList

/-! ### Basic resolver lemmas -/

theorem mem_effectivePermissions {p u o : Nat} {s : Store} :
    p ∈ effectivePermissions u o s ↔
      isMember u o s = true ∧
        ∃ r ∈ rolesOf u o s, p ∈ permissionsOf r.id s := by
  unfold effectivePermissions
  split
  · simp_all [List.mem_flatMap]
  · simp_all

/-- Claim C1 --- for every user `u` and organization `o` such that `u` has no
membership row in `o`, `effectivePermissions u o` is the empty set and
`authorize u o p` returns `false` for every permission identifier `p`. -/
theorem c1_no_membership_denies (s : Store) (u o : Nat)
    (h : ∀ m ∈ s.memberships, ¬(m.userId = u ∧ m.organizationId = o)) :
    effectivePermissions u o s = [] ∧ ∀ p, authorize u o p s = false := by
  have hm : isMember u o s = false := by
    unfold isMember
    rw [List.any_eq_false]
    intro m hmem
    simp only [Bool.and_eq_true, beq_iff_eq]
    exact fun hc => h m hmem ⟨hc.1, hc.2⟩
  constructor
  · unfold effectivePermissions
    simp [hm]
  · intro p
    unfold authorize effectivePermissions
    simp [hm]

/-- Witness for C1 at a concrete store: a store holding one membership row
for a different user, queried for user 7 in organization 6. -/
theorem c1_no_membership_denies_witness :
    effectivePermissions 7 6
        { emptyStore with
          memberships := [{ id := 1, userId := 5, organizationId := 6,
                            tier := MembershipTier.Member,
                            createdAt := 0, updatedAt := 0 }] } = [] ∧
      ∀ p, authorize 7 6 p
        { emptyStore with
          memberships := [{ id := 1, userId := 5, organizationId := 6,
                            tier := MembershipTier.Member,
                            createdAt := 0, updatedAt := 0 }] } = false :=
  c1_no_membership_denies _ 7 6 (by decide)

theorem mem_effectivePermissions_of_assigned (s : Store) (u o rid p : Nat)
    (hm : isMember u o s = true) (ha : tripleAssigned u rid o s = true)
    (hl : ∃ rr ∈ s.roles, rr.id = rid ∧ rr.deletedAt = none)
    (hp : p ∈ permissionsOf rid s) : p ∈ effectivePermissions u o s := by
  obtain ⟨rr, hrr, hid, hdel⟩ := hl
  apply mem_effectivePermissions.mpr
  refine ⟨hm, rr, ?_, ?_⟩
  · unfold rolesOf
    rw [List.mem_filter]
    refine ⟨hrr, ?_⟩
    rw [hid, hdel]
    simp [ha]
  · rw [hid]; exact hp

/-! ### Claim C2: the union law -/

/-- A store where user 1 is a member of organization 2 and is assigned the
soft-deleted role 3, which grants permission 7. -/
def c2StoreDeleted : Store :=
  { emptyStore with
    memberships := [{ id := 1, userId := 1, organizationId := 2,
                      tier := MembershipTier.Member, createdAt := 0, updatedAt := 0 }]
    roles := [{ id := 3, name := "R", description := "", purpose := "",
                department := "", organizationId := 2, deletedAt := some 0,
                createdAt := 0, updatedAt := 0 }]
    roleFunctions := [{ id := 10, roleId := 3, functionId := 7,
                        createdAt := 0, updatedAt := 0 }]
    userRoles := [{ id := 20, userId := 1, roleId := 3, organizationId := 2,
                    createdAt := 0, updatedAt := 0 }] }

/-- A store where user 1 has no membership in organization 2 but is assigned
the live role 3, which grants permission 7. -/
def c2StoreNoMember : Store :=
  { emptyStore with
    roles := [{ id := 3, name := "R", description := "", purpose := "",
                department := "", organizationId := 2, deletedAt := none,
                createdAt := 0, updatedAt := 0 }]
    roleFunctions := [{ id := 10, roleId := 3, functionId := 7,
                        createdAt := 0, updatedAt := 0 }]
    userRoles := [{ id := 20, userId := 1, roleId := 3, organizationId := 2,
                    createdAt := 0, updatedAt := 0 }] }

/-- Counterexample to claim C2 as stated.  With r1 = r2 = role 3 assigned to
user 1 in organization 2: when the assigned role is soft-deleted its granted
permission 7 is in permissionsOf(r1) but not in the effective set, so the
superset law fails; and when the user has no membership the effective set is
empty while the union over the non-deleted assigned roles is {7}, so the
equality part fails too. -/
theorem c2_union_law_counterexample :
    (tripleAssigned 1 3 2 c2StoreDeleted = true ∧
      7 ∈ permissionsOf 3 c2StoreDeleted ∧
      7 ∉ effectivePermissions 1 2 c2StoreDeleted) ∧
    (tripleAssigned 1 3 2 c2StoreNoMember = true ∧
      (rolesOf 1 2 c2StoreNoMember).flatMap
        (fun r => permissionsOf r.id c2StoreNoMember) = [7] ∧
      effectivePermissions 1 2 c2StoreNoMember = []) := by decide

/-- Claim C2 as amended --- for a user `u` who is a member of `o`,
`effectivePermissions u o` equals the union over the non-deleted roles
assigned to `u` in `o` of their granted permissions, and for any two roles
`r1`, `r2` both assigned to `u` in `o` and both non-deleted, the effective
set contains every permission granted by `r1` or by `r2`. -/
theorem c2_union_law_amended (s : Store) (u o r1 r2 p : Nat)
    (hm : isMember u o s = true)
    (ha1 : tripleAssigned u r1 o s = true)
    (ha2 : tripleAssigned u r2 o s = true)
    (hl1 : ∃ rr ∈ s.roles, rr.id = r1 ∧ rr.deletedAt = none)
    (hl2 : ∃ rr ∈ s.roles, rr.id = r2 ∧ rr.deletedAt = none)
    (hp : p ∈ permissionsOf r1 s ∨ p ∈ permissionsOf r2 s) :
    effectivePermissions u o s =
      (rolesOf u o s).flatMap (fun r => permissionsOf r.id s) ∧
    p ∈ effectivePermissions u o s := by
  constructor
  · unfold effectivePermissions; simp [hm]
  · cases hp with
    | inl h => exact mem_effectivePermissions_of_assigned s u o r1 p hm ha1 hl1 h
    | inr h => exact mem_effectivePermissions_of_assigned s u o r2 p hm ha2 hl2 h

/-- A store where user 1 is a member of organization 2 and is assigned the
live roles 3 (granting 7) and 4 (granting 8). -/
def c2WitnessStore : Store :=
  { emptyStore with
    memberships := [{ id := 1, userId := 1, organizationId := 2,
                      tier := MembershipTier.Member, createdAt := 0, updatedAt := 0 }]
    roles := [{ id := 3, name := "R3", description := "", purpose := "",
                department := "", organizationId := 2, deletedAt := none,
                createdAt := 0, updatedAt := 0 },
              { id := 4, name := "R4", description := "", purpose := "",
                department := "", organizationId := 2, deletedAt := none,
                createdAt := 0, updatedAt := 0 }]
    roleFunctions := [{ id := 10, roleId := 3, functionId := 7,
                        createdAt := 0, updatedAt := 0 },
                      { id := 11, roleId := 4, functionId := 8,
                        createdAt := 0, updatedAt := 0 }]
    userRoles := [{ id := 20, userId := 1, roleId := 3, organizationId := 2,
                    createdAt := 0, updatedAt := 0 },
                  { id := 21, userId := 1, roleId := 4, organizationId := 2,
                    createdAt := 0, updatedAt := 0 }] }

/-- Witness for the amended C2 at a concrete store: permission 8 granted by
the second assigned live role is in the effective set of user 1 in
organization 2. -/
theorem c2_union_law_amended_witness :
    effectivePermissions 1 2 c2WitnessStore =
      (rolesOf 1 2 c2WitnessStore).flatMap
        (fun r => permissionsOf r.id c2WitnessStore) ∧
    8 ∈ effectivePermissions 1 2 c2WitnessStore :=
  c2_union_law_amended c2WitnessStore 1 2 3 4 8 (by decide) (by decide)
    (by decide) (by decide) (by decide) (Or.inr (by decide))

/-! ### Claim C3: the seeded SuperAdmin role -/

/-- A permission registered in the catalog after seeding, not granted to any
role. -/
def reportsViewFunction : FunctionRow :=
  { id := 9999, name := "reports.view", description := "View reports",
    purpose := "Read access to reports", category := "Reporting",
    organizationId := rugertekOrgId, createdAt := 1, updatedAt := 1 }

/-- The seeded store after registering `reportsViewFunction` in the
catalog. -/
def seededStorePlusReports : Store :=
  { seededStore with functions := seededStore.functions ++ [reportsViewFunction] }

/-- Claim C3 --- the seeded SuperAdmin role is granted every permission of
the catalog, so the effective permissions of the seeded user, assigned
SuperAdmin in the seeded organization, are exactly the full catalog; and
registering a brand-new permission in the catalog afterwards leaves the
effective set unchanged, the new permission not appearing until explicitly
granted. -/
theorem c3_superadmin_full_catalog :
    permissionsOf superAdminRoleId seededStore =
      seededStore.functions.map FunctionRow.id ∧
    effectivePermissions rodrigoUserId rugertekOrgId seededStore =
      seededStore.functions.map FunctionRow.id ∧
    registerFunction reportsViewFunction seededStore =
      Except.ok seededStorePlusReports ∧
    reportsViewFunction ∈ seededStorePlusReports.functions ∧
    effectivePermissions rodrigoUserId rugertekOrgId seededStorePlusReports =
      effectivePermissions rodrigoUserId rugertekOrgId seededStore ∧
    reportsViewFunction.id ∉
      effectivePermissions rodrigoUserId rugertekOrgId seededStorePlusReports := by
  decide

/-! ### Claim C4: the seeded Viewer role and the `.view` permissions -/

/-- Counterexample to claim C4 as stated: the catalog function
`users.activity.view` ends in `.view` but the seeded Viewer role is not
granted it (and neither is `organization.auditlog.view`). -/
theorem c4_viewer_view_counterexample :
    (∃ f ∈ seededStore.functions,
      f.id = usersActivityViewId ∧ nameEndsWithView f = true) ∧
    usersActivityViewId ∉ permissionsOf viewerRoleId seededStore ∧
    (∃ f ∈ seededStore.functions,
      f.id = orgAuditLogViewId ∧ nameEndsWithView f = true) ∧
    orgAuditLogViewId ∉ permissionsOf viewerRoleId seededStore := by decide

/-- Claim C4 as amended --- the seeded Viewer role is granted exactly the
catalog functions whose name ends in `.view` except `users.activity.view`
and `organization.auditlog.view`; in particular every permission granted to
Viewer ends in `.view`. -/
theorem c4_viewer_view_amended :
    permissionsOf viewerRoleId seededStore =
      (seededStore.functions.filter (fun f =>
        nameEndsWithView f && !(f.id == usersActivityViewId) &&
          !(f.id == orgAuditLogViewId))).map FunctionRow.id ∧
    (∀ fid ∈ permissionsOf viewerRoleId seededStore,
      ∃ f ∈ seededStore.functions, f.id = fid ∧ nameEndsWithView f = true) := by
  decide

/-! ### Claim C10: seeded rows are organization scoped -/

/-- Claim C10 --- after seeding the empty store, the only organization is the
seeded one; every Function, Role, Membership and RoleAssignment row carries
its id as OrganizationId; every Membership and RoleAssignment references an
existing user and role; and every RoleFunction row references an existing
role and an existing catalog function, so every non-organization entity
transitively belongs to the one existing organization. -/
theorem c10_seeded_org_scoped :
    seededStore.organizations.map OrgRow.id = [rugertekOrgId] ∧
    seededStore.functions.all
      (fun f => f.organizationId == rugertekOrgId) = true ∧
    seededStore.roles.all
      (fun r => r.organizationId == rugertekOrgId) = true ∧
    seededStore.memberships.all
      (fun m => m.organizationId == rugertekOrgId) = true ∧
    seededStore.userRoles.all
      (fun ur => ur.organizationId == rugertekOrgId) = true ∧
    seededStore.memberships.all
      (fun m => seededStore.users.any (fun u => u.id == m.userId)) = true ∧
    seededStore.userRoles.all
      (fun ur => seededStore.users.any (fun u => u.id == ur.userId) &&
        seededStore.roles.any (fun r => r.id == ur.roleId)) = true ∧
    seededStore.roleFunctions.all
      (fun rf => seededStore.roles.any (fun r => r.id == rf.roleId) &&
        seededStore.functions.any (fun f => f.id == rf.functionId)) = true := by
  decide

/-! ### Claim C6: cross-organization assignment -/

/-- The role of the C6 stores: role 1 owned by organization 10. -/
def c6Role : RoleRow :=
  { id := 1, name := "RoleOfOrgTen", description := "", purpose := "",
    department := "", organizationId := 10, deletedAt := none,
    createdAt := 0, updatedAt := 0 }

/-- A store holding role 1 of organization 10 and no membership at all. -/
def c6Store : Store := { emptyStore with roles := [c6Role] }

/-- Counterexample to claim C6 as stated: role 1 is owned by organization
10, organization 20 differs, yet assignRole of user 2 in organization 20
fails with NotAMember --- not OrganizationMismatch --- because user 2 has no
membership in organization 20 and the membership check comes first (spec
section 4.3 lists NotAMember before OrganizationMismatch).  The store is
still left unchanged. -/
theorem c6_org_mismatch_counterexample :
    c6Role ∈ c6Store.roles ∧ c6Role.organizationId = 10 ∧ (10 : Nat) ≠ 20 ∧
    assignRole 2 1 20 99 0 c6Store =
      (Except.error RbacError.NotAMember, c6Store) ∧
    (Except.error RbacError.NotAMember : Except RbacError Unit) ≠
      Except.error RbacError.OrganizationMismatch := by decide

/-- Claim C6 as amended --- for every user `u` who is a member of
organization `o`, and every role present in the store whose owning
organization differs from `o`, `assignRole u r o` fails with
`OrganizationMismatch` and leaves the store unchanged. -/
theorem c6_org_mismatch_amended (s : Store) (u rid o newId now : Nat)
    (r : RoleRow)
    (hm : isMember u o s = true)
    (hfind : s.roles.find? (fun rr => rr.id == rid) = some r)
    (horg : r.organizationId ≠ o) :
    assignRole u rid o newId now s =
      (Except.error RbacError.OrganizationMismatch, s) := by
  simp [assignRole, hm, hfind, horg]

/-- A store holding role 1 of organization 10 and a membership of user 2 in
organization 20. -/
def c6WitnessStore : Store :=
  { emptyStore with
    roles := [c6Role]
    memberships := [{ id := 5, userId := 2, organizationId := 20,
                      tier := MembershipTier.Member, createdAt := 0, updatedAt := 0 }] }

/-- Witness for the amended C6 at a concrete store: user 2, a member of
organization 20, cannot be assigned role 1 of organization 10. -/
theorem c6_org_mismatch_amended_witness :
    assignRole 2 1 20 99 0 c6WitnessStore =
      (Except.error RbacError.OrganizationMismatch, c6WitnessStore) :=
  c6_org_mismatch_amended c6WitnessStore 2 1 20 99 0 c6Role (by decide)
    (by decide) (by decide)

/-! ### Claim C7: assignment is idempotent -/

theorem assignRole_ok_of_assigned (u rid o newId now : Nat) (s : Store)
    (r : RoleRow)
    (hm : isMember u o s = true)
    (hfind : s.roles.find? (fun rr => rr.id == rid) = some r)
    (horg : r.organizationId = o)
    (htr : tripleAssigned u rid o s = true) :
    assignRole u rid o newId now s = (Except.ok (), s) := by
  simp [assignRole, hm, hfind, horg, htr]

/-- Claim C7 --- after an assignRole call for the triple (u, rid, o)
succeeded, producing store `s1`, assigning the same triple a second time is
an idempotent success: it returns `s1` itself (no second assignment row) and
the effective permissions of every user in every organization are
unchanged. -/
theorem c7_assign_idempotent (u rid o id1 t1 id2 t2 : Nat) (s s1 : Store)
    (h : assignRole u rid o id1 t1 s = (Except.ok (), s1)) :
    assignRole u rid o id2 t2 s1 = (Except.ok (), s1) ∧
    ∀ u2 o2, effectivePermissions u2 o2 (assignRole u rid o id2 t2 s1).2 =
      effectivePermissions u2 o2 s1 := by
  have hsec : assignRole u rid o id2 t2 s1 = (Except.ok (), s1) := by
    unfold assignRole at h
    split at h
    · rename_i hm
      split at h
      · simp at h
      · rename_i r hfind
        split at h
        · rename_i horg
          split at h
          · rename_i htr
            simp only [Prod.mk.injEq] at h
            obtain ⟨-, h1⟩ := h
            subst h1
            exact assignRole_ok_of_assigned u rid o id2 t2 s r hm hfind
              (by simpa using horg) htr
          · simp only [Prod.mk.injEq] at h
            obtain ⟨-, h1⟩ := h
            subst h1
            apply assignRole_ok_of_assigned u rid o id2 t2 _ r
            · exact hm
            · exact hfind
            · simpa using horg
            · simp [tripleAssigned, List.any_append]
        · simp at h
    · simp at h
  exact ⟨hsec, fun u2 o2 => by rw [hsec]⟩

/-- A store where user 1 is a member of organization 2 and role 3 of
organization 2 is live, granting permission 7, with no assignment yet. -/
def c7WitnessStore : Store :=
  { emptyStore with
    memberships := [{ id := 1, userId := 1, organizationId := 2,
                      tier := MembershipTier.Member, createdAt := 0, updatedAt := 0 }]
    roles := [{ id := 3, name := "R3", description := "", purpose := "",
                department := "", organizationId := 2, deletedAt := none,
                createdAt := 0, updatedAt := 0 }]
    roleFunctions := [{ id := 10, roleId := 3, functionId := 7,
                        createdAt := 0, updatedAt := 0 }] }

/-- Witness for C7 at a concrete store: assigning role 3 to member 1 in
organization 2 twice; the second call returns the once-assigned store
unchanged. -/
theorem c7_assign_idempotent_witness :
    assignRole 1 3 2 31 1 (assignRole 1 3 2 30 0 c7WitnessStore).2 =
      (Except.ok (), (assignRole 1 3 2 30 0 c7WitnessStore).2) ∧
    ∀ u2 o2, effectivePermissions u2 o2
        (assignRole 1 3 2 31 1 (assignRole 1 3 2 30 0 c7WitnessStore).2).2 =
      effectivePermissions u2 o2 (assignRole 1 3 2 30 0 c7WitnessStore).2 :=
  c7_assign_idempotent 1 3 2 30 0 31 1 c7WitnessStore
    (assignRole 1 3 2 30 0 c7WitnessStore).2 (by decide)

/-! ### Claim C8: soft delete -/

theorem tripleAssigned_deleteRole (u rid2 o rid t : Nat) (s : Store) :
    tripleAssigned u rid2 o (deleteRole rid t s) = tripleAssigned u rid2 o s :=
  rfl

theorem rolesOf_deleteRole (u o rid t : Nat) (s : Store) :
    rolesOf u o (deleteRole rid t s) =
      (rolesOf u o s).filter (fun r => !(r.id == rid)) := by
  unfold rolesOf
  have hroles : (deleteRole rid t s).roles = s.roles.map
      (fun r => if r.id == rid then { r with deletedAt := some t } else r) := rfl
  simp only [hroles, tripleAssigned_deleteRole]
  generalize s.roles = l
  induction l with
  | nil => rfl
  | cons hd tl ih =>
    rw [List.map_cons]
    cases hid : hd.id == rid with
    | true =>
      simp only [List.filter_cons] at ih ⊢
      simp at ih ⊢
      rw [ih]
      split
      · simp [List.filter_cons, List.filter_filter, hid]
      · simp [List.filter_filter]
    | false =>
      simp only [List.filter_cons] at ih ⊢
      simp at ih ⊢
      rw [ih]
      split
      · simp [List.filter_cons, List.filter_filter, hid]
      · simp [List.filter_filter]

/-- Claim C8 --- deleteRole only marks the role with the deleted timestamp:
the RoleFunction and UserRole (RoleAssignment) tables, the memberships, the
functions, the organizations and the users are all left unchanged, every
role with the given id carries the deleted timestamp afterwards, every
other role row is untouched, and every subsequent effectivePermissions
query equals the effective permissions with the contribution of the deleted
role excluded from the union. -/
theorem c8_delete_role_soft (rid t : Nat) (s : Store) :
    (deleteRole rid t s).roleFunctions = s.roleFunctions ∧
    (deleteRole rid t s).userRoles = s.userRoles ∧
    (deleteRole rid t s).memberships = s.memberships ∧
    (deleteRole rid t s).functions = s.functions ∧
    (deleteRole rid t s).organizations = s.organizations ∧
    (deleteRole rid t s).users = s.users ∧
    (deleteRole rid t s).roles = s.roles.map
      (fun r => if r.id == rid then { r with deletedAt := some t } else r) ∧
    (∀ u o, effectivePermissions u o (deleteRole rid t s) =
      effPermsExcludingRole rid u o s) := by
  refine ⟨rfl, rfl, rfl, rfl, rfl, rfl, rfl, ?_⟩
  intro u o
  unfold effectivePermissions effPermsExcludingRole
  have hm : isMember u o (deleteRole rid t s) = isMember u o s := rfl
  rw [hm, rolesOf_deleteRole]
  split
  · exact List.flatMap_congr fun x _ => rfl
  · rfl

/-! ### Claim C5: seeding is idempotent

For each of the seven seeding steps: a frame lemma (the step touches no
other table), a guard lemma (after the step its existence guard holds) and
a skip lemma (when the guard holds the step is the identity). -/

theorem seedOrganizationsAsync_frame (now : Nat) (s : Store) :
    (seedOrganizationsAsync now s).users = s.users ∧
    (seedOrganizationsAsync now s).memberships = s.memberships ∧
    (seedOrganizationsAsync now s).functions = s.functions ∧
    (seedOrganizationsAsync now s).roles = s.roles ∧
    (seedOrganizationsAsync now s).roleFunctions = s.roleFunctions ∧
    (seedOrganizationsAsync now s).userRoles = s.userRoles := by
  unfold seedOrganizationsAsync; split <;> exact ⟨rfl, rfl, rfl, rfl, rfl, rfl⟩

theorem seedUsersAsync_frame (now : Nat) (pw : String) (s : Store) :
    (seedUsersAsync now pw s).organizations = s.organizations ∧
    (seedUsersAsync now pw s).memberships = s.memberships ∧
    (seedUsersAsync now pw s).functions = s.functions ∧
    (seedUsersAsync now pw s).roles = s.roles ∧
    (seedUsersAsync now pw s).roleFunctions = s.roleFunctions ∧
    (seedUsersAsync now pw s).userRoles = s.userRoles := by
  unfold seedUsersAsync; split <;> exact ⟨rfl, rfl, rfl, rfl, rfl, rfl⟩

theorem seedOrganizationMembershipsAsync_frame (now : Nat) (s : Store) :
    (seedOrganizationMembershipsAsync now s).organizations = s.organizations ∧
    (seedOrganizationMembershipsAsync now s).users = s.users ∧
    (seedOrganizationMembershipsAsync now s).functions = s.functions ∧
    (seedOrganizationMembershipsAsync now s).roles = s.roles ∧
    (seedOrganizationMembershipsAsync now s).roleFunctions = s.roleFunctions ∧
    (seedOrganizationMembershipsAsync now s).userRoles = s.userRoles := by
  unfold seedOrganizationMembershipsAsync
  split <;> exact ⟨rfl, rfl, rfl, rfl, rfl, rfl⟩

theorem seedFunctionsAsync_frame (now : Nat) (s : Store) :
    (seedFunctionsAsync now s).organizations = s.organizations ∧
    (seedFunctionsAsync now s).users = s.users ∧
    (seedFunctionsAsync now s).memberships = s.memberships ∧
    (seedFunctionsAsync now s).roles = s.roles ∧
    (seedFunctionsAsync now s).roleFunctions = s.roleFunctions ∧
    (seedFunctionsAsync now s).userRoles = s.userRoles := by
  unfold seedFunctionsAsync; split <;> exact ⟨rfl, rfl, rfl, rfl, rfl, rfl⟩

theorem seedRolesAsync_frame (now : Nat) (s : Store) :
    (seedRolesAsync now s).organizations = s.organizations ∧
    (seedRolesAsync now s).users = s.users ∧
    (seedRolesAsync now s).memberships = s.memberships ∧
    (seedRolesAsync now s).functions = s.functions ∧
    (seedRolesAsync now s).roleFunctions = s.roleFunctions ∧
    (seedRolesAsync now s).userRoles = s.userRoles := by
  unfold seedRolesAsync; split <;> exact ⟨rfl, rfl, rfl, rfl, rfl, rfl⟩

theorem seedRoleFunctionsAsync_frame (now : Nat) (fresh : Nat → Nat) (s : Store) :
    (seedRoleFunctionsAsync now fresh s).organizations = s.organizations ∧
    (seedRoleFunctionsAsync now fresh s).users = s.users ∧
    (seedRoleFunctionsAsync now fresh s).memberships = s.memberships ∧
    (seedRoleFunctionsAsync now fresh s).functions = s.functions ∧
    (seedRoleFunctionsAsync now fresh s).roles = s.roles ∧
    (seedRoleFunctionsAsync now fresh s).userRoles = s.userRoles := by
  unfold seedRoleFunctionsAsync; split <;> exact ⟨rfl, rfl, rfl, rfl, rfl, rfl⟩

theorem seedUserRolesAsync_frame (now : Nat) (s : Store) :
    (seedUserRolesAsync now s).organizations = s.organizations ∧
    (seedUserRolesAsync now s).users = s.users ∧
    (seedUserRolesAsync now s).memberships = s.memberships ∧
    (seedUserRolesAsync now s).functions = s.functions ∧
    (seedUserRolesAsync now s).roles = s.roles ∧
    (seedUserRolesAsync now s).roleFunctions = s.roleFunctions := by
  unfold seedUserRolesAsync; split <;> exact ⟨rfl, rfl, rfl, rfl, rfl, rfl⟩

theorem seedOrganizationsAsync_guard (now : Nat) (s : Store) :
    (seedOrganizationsAsync now s).organizations.any
      (fun o => o.id == rugertekOrgId) = true := by
  unfold seedOrganizationsAsync
  split
  · assumption
  · simp [List.any_append]

theorem seedUsersAsync_guard (now : Nat) (pw : String) (s : Store) :
    (seedUsersAsync now pw s).users.any
      (fun u => u.id == rodrigoUserId) = true := by
  unfold seedUsersAsync
  split
  · assumption
  · simp [List.any_append]

theorem seedOrganizationMembershipsAsync_guard (now : Nat) (s : Store) :
    (seedOrganizationMembershipsAsync now s).memberships.any
      (fun m => m.id == rodrigoMembershipId) = true := by
  unfold seedOrganizationMembershipsAsync
  split
  · assumption
  · simp [List.any_append]

theorem seedFunctionsAsync_guard (now : Nat) (s : Store) :
    (seedFunctionsAsync now s).functions.any
      (fun f => f.id == usersViewId) = true := by
  unfold seedFunctionsAsync
  split
  · assumption
  · simp [List.any_append, getSystemFunctions]

theorem seedRolesAsync_guard (now : Nat) (s : Store) :
    (seedRolesAsync now s).roles.any
      (fun r => r.id == superAdminRoleId) = true := by
  unfold seedRolesAsync
  split
  · assumption
  · simp [List.any_append]

theorem seedRoleFunctionsAsync_guard (now : Nat) (fresh : Nat → Nat) (s : Store) :
    (seedRoleFunctionsAsync now fresh s).roleFunctions.isEmpty = false := by
  unfold seedRoleFunctionsAsync
  split
  · rename_i hempty
    simp only [List.isEmpty_iff] at hempty ⊢
    simp [hempty, getAllFunctionIds]
  · rename_i hfull
    simpa using hfull

theorem seedUserRolesAsync_guard (now : Nat) (s : Store) :
    (seedUserRolesAsync now s).userRoles.any
      (fun ur => ur.id == rodrigoSuperAdminUserRoleId) = true := by
  unfold seedUserRolesAsync
  split
  · assumption
  · simp [List.any_append]

theorem seedOrganizationsAsync_skip (now : Nat) (s : Store)
    (h : s.organizations.any (fun o => o.id == rugertekOrgId) = true) :
    seedOrganizationsAsync now s = s := by
  unfold seedOrganizationsAsync; rw [if_pos h]

theorem seedUsersAsync_skip (now : Nat) (pw : String) (s : Store)
    (h : s.users.any (fun u => u.id == rodrigoUserId) = true) :
    seedUsersAsync now pw s = s := by
  unfold seedUsersAsync; rw [if_pos h]

theorem seedOrganizationMembershipsAsync_skip (now : Nat) (s : Store)
    (h : s.memberships.any (fun m => m.id == rodrigoMembershipId) = true) :
    seedOrganizationMembershipsAsync now s = s := by
  unfold seedOrganizationMembershipsAsync; rw [if_pos h]

theorem seedFunctionsAsync_skip (now : Nat) (s : Store)
    (h : s.functions.any (fun f => f.id == usersViewId) = true) :
    seedFunctionsAsync now s = s := by
  unfold seedFunctionsAsync; rw [if_pos h]

theorem seedRolesAsync_skip (now : Nat) (s : Store)
    (h : s.roles.any (fun r => r.id == superAdminRoleId) = true) :
    seedRolesAsync now s = s := by
  unfold seedRolesAsync; rw [if_pos h]

theorem seedRoleFunctionsAsync_skip (now : Nat) (fresh : Nat → Nat) (s : Store)
    (h : s.roleFunctions.isEmpty = false) :
    seedRoleFunctionsAsync now fresh s = s := by
  unfold seedRoleFunctionsAsync; rw [if_neg (by simp [h])]

theorem seedUserRolesAsync_skip (now : Nat) (s : Store)
    (h : s.userRoles.any (fun ur => ur.id == rodrigoSuperAdminUserRoleId) = true) :
    seedUserRolesAsync now s = s := by
  unfold seedUserRolesAsync; rw [if_pos h]

/-- Claim C5 --- the seeding routine is idempotent: running SeedAsync a
second time, with any timestamp, fresh-id supply and password hash, on the
store produced by a first run leaves the store in exactly the same state:
no row is inserted and no table is changed. -/
theorem c5_seed_idempotent (n1 n2 : Nat) (f1 f2 : Nat → Nat)
    (pw1 pw2 : String) (s : Store) :
    seedAsync n2 f2 pw2 (seedAsync n1 f1 pw1 s) = seedAsync n1 f1 pw1 s := by
  have h1 : (seedAsync n1 f1 pw1 s).organizations.any
      (fun o => o.id == rugertekOrgId) = true := by
    unfold seedAsync
    rw [(seedUserRolesAsync_frame _ _).1, (seedRoleFunctionsAsync_frame _ _ _).1,
      (seedRolesAsync_frame _ _).1, (seedFunctionsAsync_frame _ _).1,
      (seedOrganizationMembershipsAsync_frame _ _).1,
      (seedUsersAsync_frame _ _ _).1]
    exact seedOrganizationsAsync_guard n1 s
  have h2 : (seedAsync n1 f1 pw1 s).users.any
      (fun u => u.id == rodrigoUserId) = true := by
    unfold seedAsync
    rw [(seedUserRolesAsync_frame _ _).2.1, (seedRoleFunctionsAsync_frame _ _ _).2.1,
      (seedRolesAsync_frame _ _).2.1, (seedFunctionsAsync_frame _ _).2.1,
      (seedOrganizationMembershipsAsync_frame _ _).2.1]
    exact seedUsersAsync_guard n1 pw1 _
  have h3 : (seedAsync n1 f1 pw1 s).memberships.any
      (fun m => m.id == rodrigoMembershipId) = true := by
    unfold seedAsync
    rw [(seedUserRolesAsync_frame _ _).2.2.1, (seedRoleFunctionsAsync_frame _ _ _).2.2.1,
      (seedRolesAsync_frame _ _).2.2.1, (seedFunctionsAsync_frame _ _).2.2.1]
    exact seedOrganizationMembershipsAsync_guard n1 _
  have h4 : (seedAsync n1 f1 pw1 s).functions.any
      (fun f => f.id == usersViewId) = true := by
    unfold seedAsync
    rw [(seedUserRolesAsync_frame _ _).2.2.2.1, (seedRoleFunctionsAsync_frame _ _ _).2.2.2.1,
      (seedRolesAsync_frame _ _).2.2.2.1]
    exact seedFunctionsAsync_guard n1 _
  have h5 : (seedAsync n1 f1 pw1 s).roles.any
      (fun r => r.id == superAdminRoleId) = true := by
    unfold seedAsync
    rw [(seedUserRolesAsync_frame _ _).2.2.2.2.1,
      (seedRoleFunctionsAsync_frame _ _ _).2.2.2.2.1]
    exact seedRolesAsync_guard n1 _
  have h6 : (seedAsync n1 f1 pw1 s).roleFunctions.isEmpty = false := by
    unfold seedAsync
    rw [(seedUserRolesAsync_frame _ _).2.2.2.2.2]
    exact seedRoleFunctionsAsync_guard n1 f1 _
  have h7 : (seedAsync n1 f1 pw1 s).userRoles.any
      (fun ur => ur.id == rodrigoSuperAdminUserRoleId) = true :=
    seedUserRolesAsync_guard n1 _
  generalize hgen : seedAsync n1 f1 pw1 s = t at h1 h2 h3 h4 h5 h6 h7 ⊢
  unfold seedAsync
  rw [seedOrganizationsAsync_skip n2 _ h1, seedUsersAsync_skip n2 pw2 _ h2,
    seedOrganizationMembershipsAsync_skip n2 _ h3, seedFunctionsAsync_skip n2 _ h4,
    seedRolesAsync_skip n2 _ h5, seedRoleFunctionsAsync_skip n2 f2 _ h6,
    seedUserRolesAsync_skip n2 _ h7]

/-! ### Claim C9: the password hasher (PasswordHasher.cs)

Bytes are embedded as natural numbers below 256.  `Convert.ToBase64String`
and `Convert.FromBase64String` are embedded as an executable base64 codec
over byte lists.  The PBKDF2 primitive (`Rfc2898DeriveBytes` with SHA256,
an external cryptographic collaborator) is a parameter: any deterministic
function of (password, salt, iterations, byte count). -/

def base64Alphabet : List Char :=
  "ABCDEFGHIJKLMNOPQRSTUVWXYZabcdefghijklmnopqrstuvwxyz0123456789+/".toList

/-- The base64 digit of a sextet. -/
def sextetChar (n : Nat) : Char := base64Alphabet.getD n 'A'

/-- The sextet of a base64 digit. -/
def charSextet (c : Char) : Nat := base64Alphabet.indexOf c

/-- Base64 encoding of a byte list, three bytes to four digits, with
trailing padding. -/
def toBase64 : List Nat → List Char
  | [] => []
  | [b0] =>
    [sextetChar (b0 / 4), sextetChar (b0 % 4 * 16), '=', '=']
  | [b0, b1] =>
    [sextetChar (b0 / 4), sextetChar (b0 % 4 * 16 + b1 / 16),
     sextetChar (b1 % 16 * 4), '=']
  | b0 :: b1 :: b2 :: rest =>
    sextetChar (b0 / 4) :: sextetChar (b0 % 4 * 16 + b1 / 16) ::
      sextetChar (b1 % 16 * 4 + b2 / 64) :: sextetChar (b2 % 64) ::
        toBase64 rest

/-- Base64 decoding of a digit list back to bytes. -/
def fromBase64 : List Char → List Nat
  | c0 :: c1 :: c2 :: c3 :: rest =>
    let s0 := charSextet c0
    let s1 := charSextet c1
    if c2 = '=' then [s0 * 4 + s1 / 16]
    else
      let s2 := charSextet c2
      if c3 = '=' then [s0 * 4 + s1 / 16, s1 % 16 * 16 + s2 / 4]
      else
        (s0 * 4 + s1 / 16) :: (s1 % 16 * 16 + s2 / 4) ::
          (s2 % 4 * 64 + charSextet c3) :: fromBase64 rest
  | _ => []

theorem charSextet_sextetChar : ∀ n, n < 64 → charSextet (sextetChar n) = n := by
  decide

theorem sextetChar_ne_pad : ∀ n, n < 64 → sextetChar n ≠ '=' := by decide

theorem fromBase64_toBase64 :
    ∀ l : List Nat, (∀ b ∈ l, b < 256) → fromBase64 (toBase64 l) = l
  | [], _ => rfl
  | [b0], h => by
    have hb0 : b0 < 256 := h b0 (by simp)
    simp only [toBase64, fromBase64]
    rw [if_pos trivial]
    rw [charSextet_sextetChar _ (by omega), charSextet_sextetChar _ (by omega)]
    simp only [List.cons.injEq, and_true]
    omega
  | [b0, b1], h => by
    have hb0 : b0 < 256 := h b0 (by simp)
    have hb1 : b1 < 256 := h b1 (by simp)
    simp only [toBase64, fromBase64]
    rw [if_neg (sextetChar_ne_pad _ (by omega))]
    rw [if_pos trivial]
    rw [charSextet_sextetChar _ (by omega), charSextet_sextetChar _ (by omega),
      charSextet_sextetChar _ (by omega)]
    simp only [List.cons.injEq, and_true]
    omega
  | b0 :: b1 :: b2 :: b3 :: rest, h => by
    have hb0 : b0 < 256 := h b0 (by simp)
    have hb1 : b1 < 256 := h b1 (by simp)
    have hb2 : b2 < 256 := h b2 (by simp)
    have hrec : fromBase64 (toBase64 (b3 :: rest)) = b3 :: rest :=
      fromBase64_toBase64 (b3 :: rest) (by
        intro b hb
        exact h b (by simp at hb ⊢; tauto))
    simp only [toBase64, fromBase64]
    rw [if_neg (sextetChar_ne_pad _ (by omega))]
    rw [if_neg (sextetChar_ne_pad _ (by omega))]
    rw [charSextet_sextetChar _ (by omega), charSextet_sextetChar _ (by omega),
      charSextet_sextetChar _ (by omega), charSextet_sextetChar _ (by omega)]
    simp only [List.cons.injEq]
    refine ⟨by omega, by omega, by omega, ?_⟩
    simpa [toBase64] using hrec
  | [b0, b1, b2], h => by
    have hb0 : b0 < 256 := h b0 (by simp)
    have hb1 : b1 < 256 := h b1 (by simp)
    have hb2 : b2 < 256 := h b2 (by simp)
    simp only [toBase64, fromBase64]
    rw [if_neg (sextetChar_ne_pad _ (by omega))]
    rw [if_neg (sextetChar_ne_pad _ (by omega))]
    rw [charSextet_sextetChar _ (by omega), charSextet_sextetChar _ (by omega),
      charSextet_sextetChar _ (by omega), charSextet_sextetChar _ (by omega)]
    simp only [List.cons.injEq]
    refine ⟨by omega, by omega, by omega, trivial⟩

/-- Embeds `PasswordHasher.SaltSize`. -/
def saltSize : Nat := 16

/-- Embeds `PasswordHasher.HashSize`. -/
def hashSize : Nat := 32

/-- Embeds `PasswordHasher.Iterations`. -/
def pbkdf2Iterations : Nat := 100000

/-- Embeds `PasswordHasher.HashPassword`: derives `HashSize` bytes from the
password and a salt via the PBKDF2 collaborator, stores salt then hash, and
base64-encodes the 48 bytes.  The source draws the 16-byte salt from
`RandomNumberGenerator`; here it is a parameter. -/
def hashPassword (pbkdf2 : String → List Nat → Nat → Nat → List Nat)
    (salt : List Nat) (password : String) : List Char :=
  let hash := pbkdf2 password salt pbkdf2Iterations hashSize
  toBase64 (salt ++ hash)

/-- Embeds `PasswordHasher.VerifyPassword`: decodes the stored value, recovers the
salt from its first `SaltSize` bytes and the stored hash from the rest,
recomputes the PBKDF2 bytes and compares
(`CryptographicOperations.FixedTimeEquals` is byte-list equality). -/
def verifyPassword (pbkdf2 : String → List Nat → Nat → Nat → List Nat)
    (password : String) (passwordHash : List Char) : Bool :=
  let hashBytes := fromBase64 passwordHash
  let salt := hashBytes.take saltSize
  let storedHash := hashBytes.drop saltSize
  let computedHash := pbkdf2 password salt pbkdf2Iterations hashSize
  computedHash == storedHash

/-- Claim C9 --- for every password and every 16-byte salt (the salt being
fresh on each HashPassword call), verifying the password against the value
HashPassword produced for it succeeds: the salt is recovered from the first
16 bytes of the decoded stored value, so the recomputed PBKDF2 bytes equal
the stored hash. -/
theorem c9_verify_hash_roundtrip
    (pbkdf2 : String → List Nat → Nat → Nat → List Nat)
    (salt : List Nat) (password : String)
    (hsalt : salt.length = saltSize)
    (hsaltB : ∀ b ∈ salt, b < 256)
    (hhashB : ∀ b ∈ pbkdf2 password salt pbkdf2Iterations hashSize, b < 256) :
    verifyPassword pbkdf2 password (hashPassword pbkdf2 salt password) = true := by
  unfold verifyPassword hashPassword
  have hbytes :
      ∀ b ∈ salt ++ pbkdf2 password salt pbkdf2Iterations hashSize, b < 256 := by
    intro b hb
    rcases List.mem_append.mp hb with h | h
    · exact hsaltB b h
    · exact hhashB b h
  rw [fromBase64_toBase64 _ hbytes]
  rw [show saltSize = salt.length from hsalt.symm]
  simp [List.take_left, List.drop_left]

/-- Witness for C9 at a concrete input: a dummy PBKDF2 collaborator
returning the requested number of 7-bytes, the all-3 salt and the seeded
password. -/
theorem c9_verify_hash_roundtrip_witness :
    verifyPassword (fun _ _ _ n => List.replicate n 7) "123456"
      (hashPassword (fun _ _ _ n => List.replicate n 7)
        (List.replicate 16 3) "123456") = true :=
  c9_verify_hash_roundtrip (fun _ _ _ n => List.replicate n 7)
    (List.replicate 16 3) "123456" (by decide) (by decide) (by decide)

end OrbitOS
